import Mathlib

/-!
Verification development for the AIS WebSocket relay server
(`scripts/ais-relay.cjs`): a shallow embedding of its aggregation engine
(vessel store, position history, density grid, candidate registry,
disruption detection, snapshot building, upstream socket handlers),
together with theorems settling the specification's claims about it.

Modelling conventions:
* JS timestamps (`Date.now()` milliseconds) are `Int`.
* JS numbers used for coordinates / kinematics are `Rat`; a JS value that
  fails `Number.isFinite` (NaN / undefined / Infinity) is `Option.none`.
* JS `Map` is an association list `List (κ × α)`; `Map.set` replaces the
  first matching key in place (JS maps keep insertion order on update)
  and appends new keys at the end, `Map.delete` filters, `Map.get` finds.
* JS `Set` of strings is a `List String` kept duplicate-free by `setAdd`.
* `Math.sqrt(a) <= r` (with `a, r ≥ 0`) is embedded as `a ≤ r ^ 2`,
  which is equivalent over the reals since `sqrt` is monotone.
* `Math.round` (half rounds toward +∞ in JS) is `⌊x + 1/2⌋`.
-/

namespace AisRelay

/-! ### Kernel-computable rational arithmetic

The claims are settled by evaluating the embedding on concrete inputs, so
the embedding must stay reducible.  The library's `Rat.add`, `Rat.sub`,
`Rat.mul`, `Rat.inv` and `Rat.ofScientific` are `@[irreducible]`, so the
embedding uses the following wrappers, each proved equal to the
corresponding field operation (`ratAdd_eq` etc. below); decimal literals
are written `mkRat` (e.g. `26.5` is `mkRat 53 2`). -/

/-- `a + b` on `ℚ`, by cross-multiplication. -/
def ratAdd (a b : ℚ) : ℚ := Rat.divInt (a.num * b.den + b.num * a.den) (a.den * b.den)

/-- `a - b` on `ℚ`, by cross-multiplication. -/
def ratSub (a b : ℚ) : ℚ := Rat.divInt (a.num * b.den - b.num * a.den) (a.den * b.den)

/-- `a * b` on `ℚ`. -/
def ratMul (a b : ℚ) : ℚ := Rat.divInt (a.num * b.num) (a.den * b.den)

/-- `a / b` on `ℚ` (0 when `b = 0`; every division in the source is by a
positive quantity, guarded where needed). -/
def ratDiv (a b : ℚ) : ℚ := Rat.divInt (a.num * b.den) (a.den * b.num)

/-- `a²` on `ℚ`. -/
def ratSq (a : ℚ) : ℚ := ratMul a a

/-! ### Kernel-computable string helpers

`String.startsWith`, `String.trim`, `String.toUpper`, `String.toLower`
and `String.map` are implemented on byte positions through loops that do
not reduce, so the embedding uses character-list equivalents. -/

/-- `s.startsWith p`. -/
def strStartsWith (s p : String) : Bool := p.data.isPrefixOf s.data

/-- `s.toUpperCase()` (ASCII, which covers every string the source
compares). -/
def strToUpper (s : String) : String := ⟨s.data.map Char.toUpper⟩

/-- `s.trim()`: strip leading and trailing whitespace. -/
def strTrim (s : String) : String :=
  ⟨((s.data.dropWhile Char.isWhitespace).reverse.dropWhile Char.isWhitespace).reverse⟩

/-! ### A stable descending sort

`Array.prototype.sort` with comparator `(a, b) => key(b) - key(a)` is a
stable descending-by-key sort (stability is guaranteed by ES2019); the
source uses it with `key = intensity` (equivalently occupant count, see
`DensityZone`) and `key = timestamp`.  Modelled as a stable insertion
sort, structurally recursive so that it evaluates. -/

/-- Insert `x` below every already-placed element of equal or larger key,
keeping arrival order among ties. -/
def insertDescBy {α : Type} (key : α → ℤ) (x : α) : List α → List α
  | [] => [x]
  | y :: ys => if key x ≤ key y then y :: insertDescBy key x ys else x :: y :: ys

/-- Stable sort by strictly descending key. -/
def sortDescBy {α : Type} (key : α → ℤ) (l : List α) : List α :=
  l.foldl (fun acc x => insertDescBy key x acc) []

/-- `GRID_SIZE = 2` (degrees). -/
def GRID_SIZE : ℚ := 2

/-- `DENSITY_WINDOW = 30 * 60 * 1000` ms. -/
def DENSITY_WINDOW : ℤ := 30 * 60 * 1000

/-- `GAP_THRESHOLD = 60 * 60 * 1000` ms. -/
def GAP_THRESHOLD : ℤ := 60 * 60 * 1000

/-- `CANDIDATE_RETENTION_MS = 2 * 60 * 60 * 1000` ms. -/
def CANDIDATE_RETENTION_MS : ℤ := 2 * 60 * 60 * 1000

/-- `MAX_DENSITY_ZONES = 200`. -/
def MAX_DENSITY_ZONES : ℕ := 200

/-- `MAX_CANDIDATE_REPORTS = 1500`. -/
def MAX_CANDIDATE_REPORTS : ℕ := 1500

/-- The alternatives of `NAVAL_PREFIX_RE` (anchored at the start,
case-insensitive; the subject string is already upper-cased). -/
def NAVAL_PREFIXES : List String :=
  ["USS", "USNS", "HMS", "HMAS", "HMCS", "INS", "JS", "ROKS", "TCG",
   "FS", "BNS", "RFS", "PLAN", "PLA", "CGC", "PNS", "KRI", "ITS", "SNS", "MMSI"]

/-! ### JS `Map` / `Set` embedding -/

/-- `Map.prototype.get`. -/
def mapGet {κ α : Type} [DecidableEq κ] : List (κ × α) → κ → Option α
  | [], _ => none
  | p :: ps, k => if p.1 = k then some p.2 else mapGet ps k

/-- `Map.prototype.set`: update the first occurrence in place (JS maps keep
the original insertion position on update), append when the key is new. -/
def mapSet {κ α : Type} [DecidableEq κ] : List (κ × α) → κ → α → List (κ × α)
  | [], k, v => [(k, v)]
  | p :: ps, k, v => if p.1 = k then (k, v) :: ps else p :: mapSet ps k v

/-- `Map.prototype.delete`. -/
def mapDel {κ α : Type} [DecidableEq κ] (m : List (κ × α)) (k : κ) : List (κ × α) :=
  m.filter (fun p => decide (p.1 ≠ k))

/-- `Set.prototype.add` for string sets (no-op when already present). -/
def setAdd (s : List String) (x : String) : List String :=
  if x ∈ s then s else s ++ [x]

/-- Iterate a map, per entry either deleting it or replacing its value:
the shape of every loop in `cleanupAggregates` (keys are never changed by
the sweep). -/
def filterMapValues {κ α β : Type} (g : α → Option β) (l : List (κ × α)) :
    List (κ × β) :=
  l.filterMap (fun p => (g p.2).map (Prod.mk p.1))

/-! ### Data model -/

/-- The `MetaData` object of an inbound aisstream message.  `MMSI` is
carried stringified (`String(meta.MMSI || '')` in the source); `ShipType`
is `none` when `Number(meta.ShipType)` is not finite. -/
structure MetaData where
  MMSI : String
  ShipName : String
  ShipType : Option ℚ
  latitude : Option ℚ
  longitude : Option ℚ
deriving Repr, DecidableEq

/-- The `Message.PositionReport` object; `none` fields are values that are
absent or fail `Number.isFinite`. -/
structure PositionReport where
  Latitude : Option ℚ
  Longitude : Option ℚ
  TrueHeading : Option ℚ
  Sog : Option ℚ
  Cog : Option ℚ
deriving Repr, DecidableEq

/-- The `Message` wrapper object. -/
structure MsgBody where
  PositionReport : Option PositionReport
deriving Repr, DecidableEq

/-- A parsed inbound message (`data` in the source). -/
structure AisData where
  MessageType : Option String
  MetaData : Option MetaData
  Message : Option MsgBody
deriving Repr, DecidableEq

/-- A `vessels` map entry. -/
structure VesselRecord where
  mmsi : String
  name : String
  lat : ℚ
  lon : ℚ
  timestamp : ℤ
  shipType : Option ℚ
  heading : Option ℚ
  speed : Option ℚ
  course : Option ℚ
deriving Repr, DecidableEq

/-- A `densityGrid` cell. -/
structure DensityCell where
  lat : ℚ
  lon : ℚ
  vessels : List String
  lastUpdate : ℤ
  previousCount : ℕ
deriving Repr, DecidableEq

/-- A `candidateReports` entry. -/
structure CandidateReport where
  mmsi : String
  name : String
  lat : ℚ
  lon : ℚ
  shipType : Option ℚ
  heading : Option ℚ
  speed : Option ℚ
  course : Option ℚ
  timestamp : ℤ
deriving Repr, DecidableEq

/-- A disruption record pushed by `detectDisruptions`; chokepoint records
use `vesselCount`/`region`, the gap-spike record uses `darkShips`. -/
structure Disruption where
  id : String
  name : String
  type : String
  lat : ℚ
  lon : ℚ
  severity : String
  changePct : ℤ
  windowHours : ℕ
  vesselCount : Option ℕ
  darkShips : Option ℕ
  region : Option String
  description : String
deriving Repr, DecidableEq

/-- A density zone produced by `calculateDensityZones`.  The source also
carries `intensity`, a real-valued log-compressed score
`0.2 + 0.8·(ln(c+1) − ln(min+1))/(ln(max+1) − ln(min+1))` used only for
display and for the final descending sort; since `ln` is strictly
monotone, that sort orders zones exactly by descending occupant count,
equivalently by descending `shipsPerDay = count × 48`, which is the
ordering used here (the transcendental score itself is not
rational-representable and no claim mentions its value). -/
structure DensityZone where
  id : String
  name : String
  lat : ℚ
  lon : ℚ
  deltaPct : ℤ
  shipsPerDay : ℕ
  note : Option String
deriving Repr, DecidableEq

/-- A static `CHOKEPOINTS` entry. -/
structure Chokepoint where
  name : String
  lat : ℚ
  lon : ℚ
  radius : ℚ
deriving Repr, DecidableEq

/-- The `CHOKEPOINTS` table (decimals as `mkRat _ 2`: `26.5 = 53/2`,
`56.5 = 113/2`, `32.5 = 65/2`, `2.5 = 5/2`, `101.5 = 203/2`,
`12.5 = 25/2`, `43.5 = 87/2`, `1.5 = 3/2`, `-79.5 = -159/2`,
`24.5 = 49/2`, `119.5 = 239/2`). -/
def CHOKEPOINTS : List Chokepoint :=
  [⟨"Strait of Hormuz", mkRat 53 2, mkRat 113 2, 2⟩,
   ⟨"Suez Canal", 30, mkRat 65 2, 1⟩,
   ⟨"Strait of Malacca", mkRat 5 2, mkRat 203 2, 2⟩,
   ⟨"Bab el-Mandeb", mkRat 25 2, mkRat 87 2, mkRat 3 2⟩,
   ⟨"Panama Canal", 9, mkRat (-159) 2, 1⟩,
   ⟨"Taiwan Strait", mkRat 49 2, mkRat 239 2, 2⟩,
   ⟨"South China Sea", 15, 115, 5⟩,
   ⟨"Black Sea", mkRat 87 2, 34, 3⟩]

/-- The status block of a snapshot. -/
structure SnapStatus where
  connected : Bool
  vessels : ℕ
  messages : ℕ
  clients : ℕ
deriving Repr, DecidableEq

/-- A built snapshot (`timestamp` is kept as the millisecond value that the
source renders with `toISOString`). -/
structure Snapshot where
  sequence : ℕ
  timestamp : ℤ
  status : SnapStatus
  disruptions : List Disruption
  density : List DensityZone
deriving Repr, DecidableEq

/-- A downstream WebSocket client: its identity and whether its
`readyState` is `OPEN`. -/
structure ClientConn where
  id : ℕ
  isOpen : Bool
deriving Repr, DecidableEq

/-- The whole mutable module state of the relay.  `upstreamSocket` is the
identity of the currently tracked upstream socket (`none` when cleared);
`upstreamOpen` records whether that socket's `readyState` is `OPEN`. -/
structure RelayState where
  vessels : List (String × VesselRecord)
  vesselHistory : List (String × List ℤ)
  densityGrid : List ((ℤ × ℤ) × DensityCell)
  candidateReports : List (String × CandidateReport)
  snapshotSequence : ℕ
  lastSnapshot : Option Snapshot
  lastSnapshotAt : ℤ
  messageCount : ℕ
  upstreamSocket : Option ℕ
  upstreamOpen : Bool
  clients : List ClientConn
deriving Repr, DecidableEq

/-- The initial module state. -/
def initState : RelayState :=
  { vessels := [], vesselHistory := [], densityGrid := [], candidateReports := []
    snapshotSequence := 0, lastSnapshot := none, lastSnapshotAt := 0
    messageCount := 0, upstreamSocket := none, upstreamOpen := false, clients := [] }

/-! ### Classifier -/

/-- The ship-type arm of `isLikelyMilitaryCandidate`:
`Number.isFinite(shipType) && (shipType === 35 || shipType === 55 ||
(shipType >= 50 && shipType <= 59))`. -/
def isMilitaryShipType : Option ℚ → Bool
  | none => false
  | some st => st == 35 || st == 55 || (decide (50 ≤ st) && decide (st ≤ 59))

/-- `name && NAVAL_PREFIX_RE.test(name)` on the trimmed upper-cased name. -/
def matchesNavalName (name : String) : Bool :=
  name != "" && NAVAL_PREFIXES.any (fun p => strStartsWith name p)

/-- The MMSI arm: `mmsi.length >= 9` and `mmsi.substring(3)` starts with
`"00"` or `"99"`. -/
def mmsiSuffixFlag (mmsi : String) : Bool :=
  decide (9 ≤ mmsi.length) &&
    (let suffix := mmsi.drop 3
     strStartsWith suffix "00" || strStartsWith suffix "99")

/-- `isLikelyMilitaryCandidate(meta)`. -/
def isLikelyMilitaryCandidate (meta : MetaData) : Bool :=
  isMilitaryShipType meta.ShipType ||
  matchesNavalName (strToUpper (strTrim meta.ShipName)) ||
  mmsiSuffixFlag meta.MMSI

/-! ### Ingestion -/

/-- `getGridKey(lat, lon)` as the integer pair
`(Math.floor(lat/2)*2, Math.floor(lon/2)*2)` (the source renders it as the
string `"gridLat,gridLon"`, an injective image of this pair). -/
def getGridKey (lat lon : ℚ) : ℤ × ℤ :=
  (⌊ratDiv lat GRID_SIZE⌋ * 2, ⌊ratDiv lon GRID_SIZE⌋ * 2)

/-- The resolved latitude of a report:
`Number.isFinite(pos.Latitude) ? pos.Latitude : meta.latitude`. -/
def resolvedLat (meta : MetaData) (pos : PositionReport) : Option ℚ :=
  match pos.Latitude with
  | some l => some l
  | none => meta.latitude

/-- The resolved longitude of a report. -/
def resolvedLon (meta : MetaData) (pos : PositionReport) : Option ℚ :=
  match pos.Longitude with
  | some l => some l
  | none => meta.longitude

/-- The guard section of `processPositionReportForSnapshot`: the early
returns for a missing `MetaData` / `Message.PositionReport`, an empty
MMSI, or unresolvable coordinates; on success, the extracted metadata,
position report and resolved coordinates. -/
def parseReport (d : AisData) : Option (MetaData × PositionReport × ℚ × ℚ) :=
  match d.MetaData, d.Message.bind MsgBody.PositionReport with
  | some meta, some pos =>
    if meta.MMSI = "" then none else
    match resolvedLat meta pos, resolvedLon meta pos with
    | some lat, some lon => some (meta, pos, lat, lon)
    | _, _ => none
  | _, _ => none

/-- The `VesselRecord` written by a report. -/
def mkVesselRecord (meta : MetaData) (pos : PositionReport) (lat lon : ℚ) (now : ℤ) :
    VesselRecord :=
  { mmsi := meta.MMSI, name := meta.ShipName, lat := lat, lon := lon
    timestamp := now, shipType := meta.ShipType
    heading := pos.TrueHeading, speed := pos.Sog, course := pos.Cog }

/-- The `CandidateReport` written by a report from a flagged vessel. -/
def mkCandidateReport (meta : MetaData) (pos : PositionReport) (lat lon : ℚ) (now : ℤ) :
    CandidateReport :=
  { mmsi := meta.MMSI, name := meta.ShipName, lat := lat, lon := lon
    shipType := meta.ShipType, heading := pos.TrueHeading
    speed := pos.Sog, course := pos.Cog, timestamp := now }

/-- A lazily created density cell: center = bin origin + half grid size,
empty occupant set. -/
def freshCell (lat lon : ℚ) (now : ℤ) : DensityCell :=
  { lat := ratAdd ((⌊ratDiv lat GRID_SIZE⌋ * 2 : ℤ) : ℚ) (ratDiv GRID_SIZE 2)
    lon := ratAdd ((⌊ratDiv lon GRID_SIZE⌋ * 2 : ℤ) : ℚ) (ratDiv GRID_SIZE 2)
    vessels := [], lastUpdate := now, previousCount := 0 }

/-- The mutation body of `processPositionReportForSnapshot`, after the
guards have passed. -/
def ingestReport (s : RelayState) (meta : MetaData) (pos : PositionReport)
    (lat lon : ℚ) (now : ℤ) : RelayState :=
  let mmsi := meta.MMSI
  let vessels1 := mapSet s.vessels mmsi (mkVesselRecord meta pos lat lon now)
  let history1 := (mapGet s.vesselHistory mmsi).getD [] ++ [now]
  let history2 := if 10 < history1.length then history1.tail else history1
  let vesselHistory1 := mapSet s.vesselHistory mmsi history2
  let key := getGridKey lat lon
  let cell0 : DensityCell := (mapGet s.densityGrid key).getD (freshCell lat lon now)
  let cell1 := { cell0 with vessels := setAdd cell0.vessels mmsi, lastUpdate := now }
  let densityGrid1 := mapSet s.densityGrid key cell1
  let candidateReports1 :=
    if isLikelyMilitaryCandidate meta then
      mapSet s.candidateReports mmsi (mkCandidateReport meta pos lat lon now)
    else s.candidateReports
  { s with vessels := vessels1, vesselHistory := vesselHistory1
           densityGrid := densityGrid1, candidateReports := candidateReports1 }

/-- `processPositionReportForSnapshot(data)` at time `now`.  Returns the
state unchanged when a guard fails. -/
def processPositionReportForSnapshot (s : RelayState) (d : AisData) (now : ℤ) :
    RelayState :=
  match parseReport d with
  | some (meta, pos, lat, lon) => ingestReport s meta pos lat lon now
  | none => s

/-- The sweep of one vessel entry: delete it when stale
(`vessel.timestamp < cutoff`). -/
def sweepVessel (cutoff : ℤ) (v : VesselRecord) : Option VesselRecord :=
  if v.timestamp < cutoff then none else some v

/-- The sweep of one history: filter timestamps to the window, delete the
entry when nothing is left. -/
def sweepHistory (cutoff : ℤ) (h : List ℤ) : Option (List ℤ) :=
  let filtered := h.filter (fun ts => decide (cutoff ≤ ts))
  if filtered.length = 0 then none else some filtered

/-- The sweep of one density cell against the already-pruned vessel map:
record `previousCount`, drop occupants whose record is missing or stale,
delete the cell when it is empty and stale beyond twice the window. -/
def sweepCell (vessels1 : List (String × VesselRecord)) (now : ℤ) (cutoff : ℤ)
    (cell : DensityCell) : Option DensityCell :=
  let kept := cell.vessels.filter (fun m =>
    match mapGet vessels1 m with
    | none => false
    | some v => decide (cutoff ≤ v.timestamp))
  if kept.length == 0 && decide (DENSITY_WINDOW * 2 < now - cell.lastUpdate)
  then none
  else some { cell with previousCount := cell.vessels.length, vessels := kept }

/-- The sweep of one candidate report: delete when idle beyond the
retention period. -/
def sweepCandidate (now : ℤ) (r : CandidateReport) : Option CandidateReport :=
  if r.timestamp < now - CANDIDATE_RETENTION_MS then none else some r

/-- `cleanupAggregates()` at time `now`: prune stale vessels, filter
histories to the density window (dropping empty ones), refresh each cell's
`previousCount` and occupant set, delete long-empty cells, and purge
candidate reports beyond the retention period.  The density pass consults
the already-pruned vessel map, exactly as the source's loop order does. -/
def cleanupAggregates (s : RelayState) (now : ℤ) : RelayState :=
  let cutoff := now - DENSITY_WINDOW
  let vessels1 := filterMapValues (sweepVessel cutoff) s.vessels
  let vesselHistory1 := filterMapValues (sweepHistory cutoff) s.vesselHistory
  let densityGrid1 := filterMapValues (sweepCell vessels1 now cutoff) s.densityGrid
  let candidateReports1 := filterMapValues (sweepCandidate now) s.candidateReports
  { s with vessels := vessels1, vesselHistory := vesselHistory1
           densityGrid := densityGrid1, candidateReports := candidateReports1 }

/-! ### Disruption detection -/

/-- JS `Math.round` (ties round toward `+∞`): `⌊x + 1/2⌋`. -/
def jsRound (x : ℚ) : ℤ := ⌊ratAdd x (mkRat 1 2)⌋

/-- The number of tracked vessels within `cp.radius` of the chokepoint in
flat Euclidean degree space; `Math.sqrt(d2) <= radius` is embedded as
`d2 ≤ radius²` (equivalent since `sqrt` is monotone and both sides are
nonnegative). -/
def vesselsInRange (vessels : List (String × VesselRecord)) (cp : Chokepoint) : ℕ :=
  vessels.countP (fun p =>
    decide (ratAdd (ratSq (ratSub p.2.lat cp.lat)) (ratSq (ratSub p.2.lon cp.lon)) ≤
      ratSq cp.radius))

/-- `name.toLowerCase().replace(/\s+/g, '-')` — the chokepoint names
contain only single spaces, so the run-collapsing regex degenerates to a
per-character replacement. -/
def chokepointSlug (name : String) : String :=
  ⟨(name.data.map Char.toLower).map (fun c => if c = ' ' then '-' else c)⟩

/-- The chokepoint-congestion arm of `detectDisruptions` for one
chokepoint: a record exactly when at least 5 vessels are in range. -/
def congestionRecord (vessels : List (String × VesselRecord)) (cp : Chokepoint) :
    Option Disruption :=
  let vesselCount := vesselsInRange vessels cp
  if 5 ≤ vesselCount then
    let normalTraffic : ℚ := ratMul cp.radius 10
    some { id := "chokepoint-" ++ chokepointSlug cp.name
           name := cp.name
           type := "chokepoint_congestion"
           lat := cp.lat, lon := cp.lon
           severity :=
             if ratMul normalTraffic (mkRat 3 2) < (vesselCount : ℚ) then "high"
             else if normalTraffic < (vesselCount : ℚ) then "elevated"
             else "low"
           changePct :=
             if 0 < normalTraffic then
               jsRound (ratMul (ratSub (ratDiv (vesselCount : ℚ) normalTraffic) 1) 100)
             else 0
           windowHours := 1
           vesselCount := some vesselCount
           darkShips := none
           region := some cp.name
           description := toString vesselCount ++ " vessels in " ++ cp.name }
  else none

/-- One vessel history's dark-return test: at least two timestamps, the two
most recent more than `GAP_THRESHOLD` apart, the most recent within 10
minutes of `now`. -/
def isDarkReturn (h : List ℤ) (now : ℤ) : Bool :=
  match h.getLast?, h.dropLast.getLast? with
  | some lastSeen, some secondLast =>
      decide (GAP_THRESHOLD < lastSeen - secondLast) &&
      decide (now - lastSeen < 10 * 60 * 1000)
  | _, _ => false

/-- The number of dark-return vessels over all histories. -/
def darkShipCount (s : RelayState) (now : ℤ) : ℕ :=
  s.vesselHistory.countP (fun p => isDarkReturn p.2 now)

/-- The single `gap_spike` record for a positive dark-ship count. -/
def gapSpikeRecord (c : ℕ) : Disruption :=
  { id := "global-gap-spike"
    name := "AIS Gap Spike Detected"
    type := "gap_spike"
    lat := 0, lon := 0
    severity := if 20 < c then "high" else if 10 < c then "elevated" else "low"
    changePct := (c : ℤ) * 10
    windowHours := 1
    vesselCount := none
    darkShips := some c
    region := none
    description := toString c ++ " vessels returned after extended AIS silence" }

/-- `detectDisruptions()` at time `now`: one congestion record per
qualifying chokepoint (in table order), then the gap-spike record when at
least one dark return was counted. -/
def detectDisruptions (s : RelayState) (now : ℤ) : List Disruption :=
  let congestion := CHOKEPOINTS.filterMap (congestionRecord s.vessels)
  let c := darkShipCount s now
  if 1 ≤ c then congestion ++ [gapSpikeRecord c] else congestion

/-! ### Snapshot building -/

/-- The zone built from one qualifying density cell. -/
def zoneOfCell (k : ℤ × ℤ) (cell : DensityCell) : DensityZone :=
  { id := "density-" ++ toString k.1 ++ "," ++ toString k.2
    name := "Zone " ++ toString k.1 ++ "," ++ toString k.2
    lat := cell.lat, lon := cell.lon
    deltaPct :=
      if 0 < cell.previousCount then
        jsRound (ratMul (ratDiv (ratSub (cell.vessels.length : ℚ) (cell.previousCount : ℚ))
          (cell.previousCount : ℚ)) 100)
      else 0
    shipsPerDay := cell.vessels.length * 48
    note := if 10 ≤ cell.vessels.length then some "High traffic area" else none }

/-- `calculateDensityZones()`: zones for cells with ≥2 occupants, sorted
descending (stably) and truncated to `MAX_DENSITY_ZONES`.  The source
sorts by the `intensity` score, which is strictly increasing in the
occupant count, so the order coincides with descending `shipsPerDay`
(`= count × 48`). -/
def calculateDensityZones (s : RelayState) : List DensityZone :=
  let zones := s.densityGrid.filterMap (fun p =>
    if 2 ≤ p.2.vessels.length then some (zoneOfCell p.1 p.2)
    else (none : Option DensityZone))
  (sortDescBy (fun z => (z.shipsPerDay : ℤ)) zones).take MAX_DENSITY_ZONES

/-- `getCandidateReportsSnapshot()`: the live registry's values, stably
sorted newest-first, truncated to `MAX_CANDIDATE_REPORTS`. -/
def getCandidateReportsSnapshot (reports : List (String × CandidateReport)) :
    List CandidateReport :=
  (sortDescBy CandidateReport.timestamp (reports.map Prod.snd)).take MAX_CANDIDATE_REPORTS

/-- The non-debounced path of `buildSnapshot()`: sweep, bump the sequence,
assemble and cache the snapshot. -/
def rebuildSnapshot (s : RelayState) (now : ℤ) : Snapshot × RelayState :=
  let s1 := cleanupAggregates s now
  let seq := s1.snapshotSequence + 1
  let snap : Snapshot :=
    { sequence := seq
      timestamp := now
      status := { connected := s1.upstreamOpen, vessels := s1.vessels.length
                  messages := s1.messageCount, clients := s1.clients.length }
      disruptions := detectDisruptions s1 now
      density := calculateDensityZones s1 }
  (snap, { s1 with snapshotSequence := seq, lastSnapshot := some snap, lastSnapshotAt := now })

/-- `buildSnapshot()` at time `now` with configured interval `I`
(`SNAPSHOT_INTERVAL_MS`): return the cached snapshot unchanged when one
exists and was built less than `Math.floor(I / 2)` ago, else rebuild. -/
def buildSnapshot (I : ℕ) (s : RelayState) (now : ℤ) : Snapshot × RelayState :=
  match s.lastSnapshot with
  | some snap =>
      if now - s.lastSnapshotAt < ((I / 2 : ℕ) : ℤ) then (snap, s)
      else rebuildSnapshot s now
  | none => rebuildSnapshot s now

/-- A sequence of `buildSnapshot` calls at the given times, collecting the
returned snapshots. -/
def runBuilds (I : ℕ) : RelayState → List ℤ → List Snapshot × RelayState
  | s, [] => ([], s)
  | s, t :: ts =>
      let r := buildSnapshot I s t
      let rest := runBuilds I r.2 ts
      (r.1 :: rest.1, rest.2)

/-! ### HTTP `/ais/snapshot` route -/

/-- The JSON body of a `/ais/snapshot` response:
`{...snapshot, candidateReports}`. -/
structure SnapshotPayload where
  snapshot : Snapshot
  candidateReports : List CandidateReport
deriving Repr, DecidableEq

/-- The `/ais/snapshot` route body: build (or fetch the cached) snapshot,
then spread it with `candidateReports` recomputed from the live registry
when `candidates=true`, else `[]`.  (The route first calls the idempotent
`connectUpstream()`, which never touches the aggregate registries and
cannot make `status.connected` true within the same tick — a freshly
created socket is still `CONNECTING` — so it is not modelled here.) -/
def handleSnapshotRequest (I : ℕ) (s : RelayState) (now : ℤ)
    (includeCandidates : Bool) : SnapshotPayload × RelayState :=
  let r := buildSnapshot I s now
  ({ snapshot := r.1
     candidateReports :=
       if includeCandidates then getCandidateReportsSnapshot r.2.candidateReports else [] },
   r.2)

/-! ### Upstream socket handlers -/

/-- The upstream `message` handler for an event arriving on socket `sock`
carrying raw text `raw` that JSON-parses to `parsed` (`none` when parsing
throws).  Returns the new state and the list of `(client id, text)` sends
performed.  A stale socket (not the tracked one) does nothing. -/
def onUpstreamMessage (s : RelayState) (sock : ℕ) (raw : String)
    (parsed : Option AisData) (now : ℤ) : RelayState × List (ℕ × String) :=
  if s.upstreamSocket = some sock then
    let s1 := { s with messageCount := s.messageCount + 1 }
    let s2 :=
      match parsed with
      | some d =>
          if d.MessageType = some "PositionReport"
          then processPositionReportForSnapshot s1 d now
          else s1
      | none => s1
    (s2, (s2.clients.filter ClientConn.isOpen).map (fun c => (c.id, raw)))
  else (s, [])

/-- The upstream `close` handler: only a close of the tracked socket clears
the tracked reference and schedules the 5-second reconnect (the returned
flag). -/
def onUpstreamClose (s : RelayState) (sock : ℕ) : RelayState × Bool :=
  if s.upstreamSocket = some sock then
    ({ s with upstreamSocket := none, upstreamOpen := false }, true)
  else (s, false)

/-- The upstream `open` handler: on the tracked socket it marks the
connection open and sends the subscription message (first flag); on a
stale socket it only closes that socket (second flag) and leaves the state
alone. -/
def onUpstreamOpen (s : RelayState) (sock : ℕ) : RelayState × Bool × Bool :=
  if s.upstreamSocket = some sock then
    ({ s with upstreamOpen := true }, true, false)
  else (s, false, true)

/-! ### Reachable aggregation states

The four aggregate registries (`vessels`, `vesselHistory`, `densityGrid`,
`candidateReports`) are mutated in the source only by
`processPositionReportForSnapshot` (from the upstream `message` handler)
and `cleanupAggregates` (from `buildSnapshot`); all other code reads
them.  Aggregation states are therefore generated from the initial state
by interleavings of these two operations. -/

/-- One aggregate-mutating operation. -/
inductive Op where
  | report (d : AisData) (t : ℤ)
  | sweep (t : ℤ)

/-- Apply one operation. -/
def applyOp (s : RelayState) : Op → RelayState
  | .report d t => processPositionReportForSnapshot s d t
  | .sweep t => cleanupAggregates s t

/-- Apply a list of operations in order. -/
def applyOps (s : RelayState) (ops : List Op) : RelayState :=
  ops.foldl applyOp s

/-- A state whose aggregate registries arise from some operation history. -/
def Reachable (s : RelayState) : Prop :=
  ∃ ops : List Op, s = applyOps initState ops

/-- The aggregation invariant preserved by both operations: map keys are
unique, every cell's occupant list is duplicate-free, and every tracked
vessel is an occupant of the cell its current coordinates bin into. -/
structure AggInv (s : RelayState) : Prop where
  vkeys : (s.vessels.map Prod.fst).Nodup
  gkeys : (s.densityGrid.map Prod.fst).Nodup
  cellsNodup : ∀ k cell, mapGet s.densityGrid k = some cell → cell.vessels.Nodup
  binned : ∀ m v, mapGet s.vessels m = some v →
    ∃ cell, mapGet s.densityGrid (getGridKey v.lat v.lon) = some cell ∧ m ∈ cell.vessels

/-- Fold `processPositionReportForSnapshot` over a list of
`(report, time)` pairs. -/
def foldReports (s : RelayState) (rs : List (AisData × ℤ)) : RelayState :=
  rs.foldl (fun s r => processPositionReportForSnapshot s r.1 r.2) s

/-! ### Concrete inputs used by counterexamples and witnesses -/

/-- A well-formed `PositionReport` message carrying only an MMSI, a name,
a ship type and coordinates. -/
def mkReport (mmsi name : String) (st : Option ℚ) (lat lon : ℚ) : AisData :=
  { MessageType := some "PositionReport"
    MetaData := some ⟨mmsi, name, st, none, none⟩
    Message := some ⟨some ⟨some lat, some lon, none, none, none⟩⟩ }

/-- A state holding one vessel whose history is `[t, t + 90min]` with
`t = 0`: the dark-ship scenario of the spec (gap 90 min > the 1-hour
threshold), probed at `now = t + 90min + 5min`. -/
def darkShipState : RelayState :=
  { initState with
    vessels := [("123456789",
      { mmsi := "123456789", name := "", lat := 0, lon := 0, timestamp := 5400000
        shipType := none, heading := none, speed := none, course := none })]
    vesselHistory := [("123456789", [0, 5400000])] }

/-- `n` distinct-identifier vessels sitting exactly on the Strait of
Hormuz chokepoint center `(26.5, 56.5)`. -/
def vesselsNearHormuz (n : ℕ) : List (String × VesselRecord) :=
  (List.range n).map (fun i =>
    (toString i,
     { mmsi := toString i, name := "", lat := mkRat 53 2, lon := mkRat 113 2, timestamp := 0
       shipType := none, heading := none, speed := none, course := none }))

/-- The Strait of Hormuz chokepoint (center `(26.5, 56.5)`, radius 2). -/
def hormuz : Chokepoint := ⟨"Strait of Hormuz", mkRat 53 2, mkRat 113 2, 2⟩

/-- The operation history of the cell-occupancy counterexample: one vessel
reports at `(1, 1)` (cell `(0, 0)`), then at `(11, 11)` (cell `(10, 10)`),
then the sweep runs — all at time 0, so the vessel stays fresh. -/
def movedVesselOps : List Op :=
  [.report (mkReport "123456789" "" none 1 1) 0,
   .report (mkReport "123456789" "" none 11 11) 0,
   .sweep 0]

/-- A report that matches the military heuristic through its ship type. -/
def militaryReport : AisData := mkReport "123456789" "" (some 35) 5 5

/-- A later report from the same vessel whose own metadata does not match
the heuristic (no ship type, no name, MMSI arm fails: `substring(3)` of
`"123456789"` is `"456789"`). -/
def plainReport : AisData := mkReport "123456789" "" none 7 7

/-- A state tracking upstream socket 0, with one open and one closed
downstream client. -/
def fanoutState : RelayState :=
  { initState with
    upstreamSocket := some 0
    clients := [⟨7, true⟩, ⟨8, false⟩] }

/-- A state tracking upstream socket 2. -/
def trackedState : RelayState :=
  { initState with upstreamSocket := some 2 }

/-- A second matching report from the same vessel, later and elsewhere. -/
def militaryReport2 : AisData := mkReport "123456789" "" (some 35) 6 6

/-- The state after ingesting one flagged report at time 100 and genuinely
rebuilding the snapshot at time 1000 (sequence 1, cache stamped 1000). -/
def c10StateA : RelayState :=
  (buildSnapshot 5000 (processPositionReportForSnapshot initState militaryReport 100) 1000).2

/-- The state after the first debounced request at time 1500 and a fresh
flagged report at time 1600 — still inside the debounce window of the
rebuild at 1000. -/
def c10StateB : RelayState :=
  processPositionReportForSnapshot (handleSnapshotRequest 5000 c10StateA 1500 true).2
    militaryReport2 1600

/-- A state tracking 25 vessels sitting on the Strait of Hormuz center. -/
def hormuz25State : RelayState :=
  { initState with vessels := vesselsNearHormuz 25 }

/-- A state whose `"123456789"` history already holds 10 timestamps. -/
def tenHistoryState : RelayState :=
  { initState with
    vesselHistory := [("123456789", [1, 2, 3, 4, 5, 6, 7, 8, 9, 10])] }

/-- The snapshot-cache coherence property: a cached snapshot always
carries the current sequence number (established at every genuine rebuild,
untouched by the debounce path). -/
def SnapInv (s : RelayState) : Prop :=
  ∀ snap, s.lastSnapshot = some snap → snap.sequence = s.snapshotSequence

/-- The spec's wording of the classifier's identifier arm, for comparison
with the source's `mmsi.substring(3)`: the identifier has at least 9
digits and its last 6 digits begin with `"00"` or `"99"`. -/
def specLastSixFlag (mmsi : String) : Bool :=
  decide (9 ≤ mmsi.length) &&
    (let lastSix := mmsi.drop (mmsi.length - 6)
     strStartsWith lastSix "00" || strStartsWith lastSix "99")

/-! ### Association-list and set lemmas -/

theorem mapGet_mapSet_self {κ α : Type} [DecidableEq κ] (m : List (κ × α)) (k : κ) (v : α) :
    mapGet (mapSet m k v) k = some v := by
  induction m with
  | nil => simp [mapSet, mapGet]
  | cons p ps ih =>
      by_cases h : p.1 = k
      · simp [mapSet, h, mapGet]
      · simp [mapSet, h, mapGet, ih]

theorem mapGet_mapSet_ne {κ α : Type} [DecidableEq κ] (m : List (κ × α)) (k k' : κ) (v : α)
    (h : k' ≠ k) : mapGet (mapSet m k v) k' = mapGet m k' := by
  have hne : k ≠ k' := Ne.symm h
  induction m with
  | nil => simp [mapSet, mapGet, hne]
  | cons p ps ih =>
      by_cases hp : p.1 = k
      · subst hp
        simp [mapSet, mapGet, hne]
      · simp [mapSet, hp, mapGet, ih]

theorem mapGet_mapSet_cases {κ α : Type} [DecidableEq κ] (m : List (κ × α)) (k k' : κ)
    (v w : α) (h : mapGet (mapSet m k v) k' = some w) :
    (k' = k ∧ w = v) ∨ mapGet m k' = some w := by
  by_cases hk : k' = k
  · subst hk
    rw [mapGet_mapSet_self] at h
    exact Or.inl ⟨rfl, (Option.some_inj.mp h).symm⟩
  · rw [mapGet_mapSet_ne m k k' v hk] at h
    exact Or.inr h

theorem keys_mapSet {κ α : Type} [DecidableEq κ] (m : List (κ × α)) (k : κ) (v : α) :
    (mapSet m k v).map Prod.fst =
      if k ∈ m.map Prod.fst then m.map Prod.fst else m.map Prod.fst ++ [k] := by
  induction m with
  | nil => simp [mapSet]
  | cons p ps ih =>
      by_cases h : p.1 = k
      · simp [mapSet, h]
      · have hne : k ≠ p.1 := Ne.symm h
        simp only [mapSet, if_neg h, List.map_cons, ih, List.mem_cons]
        by_cases hk : k ∈ ps.map Prod.fst
        · simp [hk, hne]
        · simp [hk, hne]

theorem nodupKeys_mapSet {κ α : Type} [DecidableEq κ] (m : List (κ × α)) (k : κ) (v : α)
    (h : (m.map Prod.fst).Nodup) : ((mapSet m k v).map Prod.fst).Nodup := by
  rw [keys_mapSet]
  by_cases hk : k ∈ m.map Prod.fst
  · simpa [hk]
  · simpa [hk, List.nodup_append] using h

theorem mapGet_eq_none_iff {κ α : Type} [DecidableEq κ] (m : List (κ × α)) (k : κ) :
    mapGet m k = none ↔ k ∉ m.map Prod.fst := by
  induction m with
  | nil => simp [mapGet]
  | cons p ps ih =>
      by_cases h : p.1 = k
      · simp [mapGet, h]
      · have hne : k ≠ p.1 := Ne.symm h
        simp [mapGet, h, ih, hne]

theorem mapGet_mem {κ α : Type} [DecidableEq κ] (m : List (κ × α)) (k : κ) (v : α)
    (h : mapGet m k = some v) : (k, v) ∈ m := by
  induction m with
  | nil => simp [mapGet] at h
  | cons p ps ih =>
      by_cases hp : p.1 = k
      · simp only [mapGet, if_pos hp, Option.some_inj] at h
        obtain ⟨a, b⟩ := p
        simp only at hp h
        subst hp
        subst h
        exact List.mem_cons_self _ _
      · simp only [mapGet, if_neg hp] at h
        exact List.mem_cons_of_mem _ (ih h)

theorem filterMapValues_cons_none {κ α β : Type} (g : α → Option β) (p : κ × α)
    (ps : List (κ × α)) (hg : g p.2 = none) :
    filterMapValues g (p :: ps) = filterMapValues g ps := by
  simp [filterMapValues, List.filterMap_cons, hg]

theorem filterMapValues_cons_some {κ α β : Type} (g : α → Option β) (p : κ × α)
    (ps : List (κ × α)) (b : β) (hg : g p.2 = some b) :
    filterMapValues g (p :: ps) = (p.1, b) :: filterMapValues g ps := by
  simp [filterMapValues, List.filterMap_cons, hg]

theorem keys_filterMapValues_sublist {κ α β : Type} (g : α → Option β)
    (l : List (κ × α)) :
    ((filterMapValues g l).map Prod.fst).Sublist (l.map Prod.fst) := by
  induction l with
  | nil => simp [filterMapValues]
  | cons p ps ih =>
      cases hg : g p.2 with
      | none =>
          rw [filterMapValues_cons_none g p ps hg, List.map_cons]
          exact (ih).cons _
      | some b =>
          rw [filterMapValues_cons_some g p ps b hg, List.map_cons, List.map_cons]
          exact (ih).cons₂ _

theorem nodupKeys_filterMapValues {κ α β : Type} (g : α → Option β)
    (l : List (κ × α)) (h : (l.map Prod.fst).Nodup) :
    ((filterMapValues g l).map Prod.fst).Nodup :=
  h.sublist (keys_filterMapValues_sublist g l)

theorem mapGet_filterMapValues {κ α β : Type} [DecidableEq κ] (g : α → Option β)
    (l : List (κ × α)) (hn : (l.map Prod.fst).Nodup) (k : κ) :
    mapGet (filterMapValues g l) k = (mapGet l k).bind g := by
  induction l with
  | nil => simp [filterMapValues, mapGet]
  | cons p ps ih =>
      rw [List.map_cons, List.nodup_cons] at hn
      obtain ⟨hnotin, hn'⟩ := hn
      by_cases hp : p.1 = k
      · subst hp
        cases hg : g p.2 with
        | none =>
            have hnone : mapGet (filterMapValues g ps) p.1 = none := by
              rw [mapGet_eq_none_iff]
              intro hmem
              exact hnotin ((keys_filterMapValues_sublist g ps).subset hmem)
            rw [filterMapValues_cons_none g p ps hg, hnone]
            simp [mapGet, hg]
        | some b =>
            rw [filterMapValues_cons_some g p ps b hg]
            simp [mapGet, hg]
      · have e1 : mapGet (p :: ps) k = mapGet ps k := by simp [mapGet, hp]
        cases hg : g p.2 with
        | none =>
            rw [filterMapValues_cons_none g p ps hg, e1, ih hn']
        | some b =>
            rw [filterMapValues_cons_some g p ps b hg, e1]
            simp only [mapGet, if_neg hp]
            exact ih hn'

theorem mem_setAdd {s : List String} {x y : String} :
    y ∈ setAdd s x ↔ y ∈ s ∨ y = x := by
  by_cases h : x ∈ s
  · simp only [setAdd, if_pos h]
    constructor
    · exact Or.inl
    · rintro (hy | rfl)
      · exact hy
      · exact h
  · simp [setAdd, if_neg h]

theorem nodup_setAdd {s : List String} {x : String} (h : s.Nodup) :
    (setAdd s x).Nodup := by
  by_cases hx : x ∈ s
  · simpa [setAdd, hx]
  · simpa [setAdd, hx, List.nodup_append] using h

/-! ### The rational wrappers agree with the field operations -/

theorem ratAdd_eq (a b : ℚ) : ratAdd a b = a + b := by
  have ha : ((a.den : ℚ)) ≠ 0 := by
    exact_mod_cast a.den_nz
  have hb : ((b.den : ℚ)) ≠ 0 := by
    exact_mod_cast b.den_nz
  rw [ratAdd, Rat.divInt_eq_div]
  push_cast
  conv_rhs => rw [← Rat.num_div_den a, ← Rat.num_div_den b]
  field_simp

theorem ratSub_eq (a b : ℚ) : ratSub a b = a - b := by
  have ha : ((a.den : ℚ)) ≠ 0 := by
    exact_mod_cast a.den_nz
  have hb : ((b.den : ℚ)) ≠ 0 := by
    exact_mod_cast b.den_nz
  rw [ratSub, Rat.divInt_eq_div]
  push_cast
  conv_rhs => rw [← Rat.num_div_den a, ← Rat.num_div_den b]
  field_simp
  ring

theorem ratMul_eq (a b : ℚ) : ratMul a b = a * b := by
  have ha : ((a.den : ℚ)) ≠ 0 := by
    exact_mod_cast a.den_nz
  have hb : ((b.den : ℚ)) ≠ 0 := by
    exact_mod_cast b.den_nz
  rw [ratMul, Rat.divInt_eq_div]
  push_cast
  conv_rhs => rw [← Rat.num_div_den a, ← Rat.num_div_den b]
  field_simp

theorem ratDiv_eq (a b : ℚ) : ratDiv a b = a / b := by
  by_cases hb0 : b = 0
  · subst hb0
    simp [ratDiv, Rat.divInt_eq_div]
  · have ha : ((a.den : ℚ)) ≠ 0 := by
      exact_mod_cast a.den_nz
    have hb : ((b.den : ℚ)) ≠ 0 := by
      exact_mod_cast b.den_nz
    have hbn : ((b.num : ℚ)) ≠ 0 := by
      exact_mod_cast Rat.num_ne_zero.mpr hb0
    rw [ratDiv, Rat.divInt_eq_div]
    push_cast
    conv_rhs => rw [← Rat.num_div_den a, ← Rat.num_div_den b]
    field_simp

theorem ratSq_eq (a : ℚ) : ratSq a = a ^ 2 := by
  rw [ratSq, ratMul_eq, sq]

/-! ### Claim C2 — the classifier's identifier arm -/

/-- C2 (counterexample): the claim says the classifier (for a vessel whose
ship type and name do not match) flags the vessel iff the LAST 6 digits of
a ≥9-digit identifier begin with "00" or "99".  The identifier
"1230012345" (10 digits) falsifies the "only if" direction: the source
tests `mmsi.substring(3)` = "0012345", which starts with "00", so the
vessel IS flagged, yet its last 6 digits "012345" start with neither "00"
nor "99". -/
theorem claim_c2_counterexample :
    isMilitaryShipType (none : Option ℚ) = false ∧
    matchesNavalName (strToUpper (strTrim "")) = false ∧
    isLikelyMilitaryCandidate ⟨"1230012345", "", none, none, none⟩ = true ∧
    specLastSixFlag "1230012345" = false := by
  decide

/-- C2 (amended): for a report whose ship type and name do not match the
other two arms, the classifier flags the vessel iff the identifier has at
least 9 digits and the digits after the first three (`substring(3)`; for a
9-digit identifier, exactly the last 6) begin with "00" or "99"; in
particular "123400099" is not flagged and "123000099" is flagged. -/
theorem claim_c2_theorem (meta : MetaData)
    (hst : isMilitaryShipType meta.ShipType = false)
    (hnm : matchesNavalName (strToUpper (strTrim meta.ShipName)) = false) :
    (isLikelyMilitaryCandidate meta = true ↔
      9 ≤ meta.MMSI.length ∧
        (strStartsWith (meta.MMSI.drop 3) "00" = true ∨
         strStartsWith (meta.MMSI.drop 3) "99" = true)) ∧
    isLikelyMilitaryCandidate ⟨"123400099", "", none, none, none⟩ = false ∧
    isLikelyMilitaryCandidate ⟨"123000099", "", none, none, none⟩ = true := by
  refine ⟨?_, by decide, by decide⟩
  rw [isLikelyMilitaryCandidate, hst, hnm]
  simp [mmsiSuffixFlag, decide_eq_true_iff]

/-- C2 witness: the amended theorem applied to the identifier
"123000099". -/
theorem claim_c2_witness :
    (isLikelyMilitaryCandidate ⟨"123000099", "", none, none, none⟩ = true ↔
      9 ≤ ("123000099" : String).length ∧
        (strStartsWith (("123000099" : String).drop 3) "00" = true ∨
         strStartsWith (("123000099" : String).drop 3) "99" = true)) ∧
    isLikelyMilitaryCandidate ⟨"123400099", "", none, none, none⟩ = false ∧
    isLikelyMilitaryCandidate ⟨"123000099", "", none, none, none⟩ = true :=
  claim_c2_theorem ⟨"123000099", "", none, none, none⟩ (by decide) (by decide)

/-! ### Claim C7 — malformed payloads: aggregates untouched, raw text
still counted and rebroadcast -/

/-- C7: a message on the tracked upstream socket that fails JSON parsing
leaves all four aggregate registries unchanged, still increments the
message counter, and is still sent raw to exactly the downstream clients
whose connection is open. -/
theorem claim_c7_theorem (s : RelayState) (sock : ℕ) (raw : String) (now : ℤ)
    (htracked : s.upstreamSocket = some sock) :
    (onUpstreamMessage s sock raw none now).1.vessels = s.vessels ∧
    (onUpstreamMessage s sock raw none now).1.vesselHistory = s.vesselHistory ∧
    (onUpstreamMessage s sock raw none now).1.densityGrid = s.densityGrid ∧
    (onUpstreamMessage s sock raw none now).1.candidateReports = s.candidateReports ∧
    (onUpstreamMessage s sock raw none now).1.messageCount = s.messageCount + 1 ∧
    (onUpstreamMessage s sock raw none now).2 =
      (s.clients.filter ClientConn.isOpen).map (fun c => (c.id, raw)) ∧
    ∀ c ∈ s.clients, c.isOpen = true →
      (c.id, raw) ∈ (onUpstreamMessage s sock raw none now).2 := by
  refine ⟨?_, ?_, ?_, ?_, ?_, ?_, ?_⟩ <;>
    simp only [onUpstreamMessage, htracked, if_pos rfl]
  · rfl
  · rfl
  · rfl
  · rfl
  · rfl
  · rfl
  · intro c hc hopen
    exact List.mem_map.mpr ⟨c, List.mem_filter.mpr ⟨hc, by simpa using hopen⟩, rfl⟩

/-- C7 witness: one open and one closed client; the raw text goes to the
open one only. -/
theorem claim_c7_witness :
    (onUpstreamMessage fanoutState 0 "not json" none 0).1.vessels =
      fanoutState.vessels ∧
    (onUpstreamMessage fanoutState 0 "not json" none 0).1.vesselHistory =
      fanoutState.vesselHistory ∧
    (onUpstreamMessage fanoutState 0 "not json" none 0).1.densityGrid =
      fanoutState.densityGrid ∧
    (onUpstreamMessage fanoutState 0 "not json" none 0).1.candidateReports =
      fanoutState.candidateReports ∧
    (onUpstreamMessage fanoutState 0 "not json" none 0).1.messageCount =
      fanoutState.messageCount + 1 ∧
    (onUpstreamMessage fanoutState 0 "not json" none 0).2 =
      (fanoutState.clients.filter ClientConn.isOpen).map (fun c => (c.id, "not json")) ∧
    ∀ c ∈ fanoutState.clients, c.isOpen = true →
      (c.id, "not json") ∈ (onUpstreamMessage fanoutState 0 "not json" none 0).2 :=
  claim_c7_theorem fanoutState 0 "not json" 0 rfl

/-! ### Claim C8 — stale-socket events are inert -/

/-- C8: an open, message, or close event on a socket that is not the
currently tracked upstream instance changes nothing: a stale message
increments no counter, mutates no state and broadcasts nothing; a stale
close keeps the tracked reference and schedules no reconnect (a stale open
only closes the offending socket). -/
theorem claim_c8_theorem (s : RelayState) (sock : ℕ) (raw : String)
    (parsed : Option AisData) (now : ℤ) (hstale : s.upstreamSocket ≠ some sock) :
    onUpstreamMessage s sock raw parsed now = (s, []) ∧
    onUpstreamClose s sock = (s, false) ∧
    onUpstreamOpen s sock = (s, false, true) := by
  refine ⟨?_, ?_, ?_⟩ <;> simp [onUpstreamMessage, onUpstreamClose, onUpstreamOpen, hstale]

/-- C8 witness: a message, close and open arriving on stale socket 1 while
socket 2 is tracked. -/
theorem claim_c8_witness :
    onUpstreamMessage trackedState 1 "m" none 0 = (trackedState, []) ∧
    onUpstreamClose trackedState 1 = (trackedState, false) ∧
    onUpstreamOpen trackedState 1 = (trackedState, false, true) :=
  claim_c8_theorem trackedState 1 "m" none 0 (by decide)

/-! ### Claim C9 — candidate refresh happens only on re-matching reports -/

/-- C9 (counterexample): the claim says every subsequent valid report from
a vessel that has a CandidateReport refreshes it, including reports whose
own metadata does not match the heuristic.  Here vessel "123456789" is
flagged at time 100 (ship type 35) at position (5,5); at time 200 a valid
report without the ship type arrives from (7,7) — its vessel record
updates to timestamp 200, but the candidate report keeps timestamp 100 and
latitude 5: it is NOT refreshed. -/
theorem claim_c9_counterexample :
    (parseReport plainReport).isSome = true ∧
    isLikelyMilitaryCandidate ⟨"123456789", "", none, none, none⟩ = false ∧
    ((mapGet (processPositionReportForSnapshot
        (processPositionReportForSnapshot initState militaryReport 100)
        plainReport 200).vessels "123456789").map VesselRecord.timestamp = some 200) ∧
    ((mapGet (processPositionReportForSnapshot
        (processPositionReportForSnapshot initState militaryReport 100)
        plainReport 200).candidateReports "123456789").map CandidateReport.timestamp =
      some 100) ∧
    ((mapGet (processPositionReportForSnapshot
        (processPositionReportForSnapshot initState militaryReport 100)
        plainReport 200).candidateReports "123456789").map CandidateReport.lat =
      some 5) := by
  decide

/-- C9 (amended): a valid report refreshes the vessel's CandidateReport —
position, kinematics and timestamp — exactly when its own metadata again
satisfies the military heuristic; otherwise the candidate registry is left
completely unchanged. -/
theorem claim_c9_theorem (s : RelayState) (d : AisData) (meta : MetaData)
    (pos : PositionReport) (lat lon : ℚ) (now : ℤ)
    (hp : parseReport d = some (meta, pos, lat, lon)) :
    (isLikelyMilitaryCandidate meta = true →
      mapGet (processPositionReportForSnapshot s d now).candidateReports meta.MMSI =
        some (mkCandidateReport meta pos lat lon now)) ∧
    (isLikelyMilitaryCandidate meta = false →
      (processPositionReportForSnapshot s d now).candidateReports = s.candidateReports) := by
  constructor <;> intro h <;>
    simp [processPositionReportForSnapshot, hp, ingestReport, h, mapGet_mapSet_self]

/-- C9 witness: the military report of the counterexample does refresh the
registry when it matches. -/
theorem claim_c9_witness :
    mapGet (processPositionReportForSnapshot initState militaryReport
        100).candidateReports ("123456789" : String) =
      some (mkCandidateReport ⟨"123456789", "", some 35, none, none⟩
        ⟨some 5, some 5, none, none, none⟩ 5 5 100) :=
  (claim_c9_theorem initState militaryReport ⟨"123456789", "", some 35, none, none⟩
    ⟨some 5, some 5, none, none, none⟩ 5 5 100 (by decide)).1 (by decide)

/-! ### Claim C1 — the dark-ship detector versus the retention sweep -/

theorem getLastQ_mem {α : Type} {l : List α} {a : α} (h : l.getLast? = some a) :
    a ∈ l := by
  obtain ⟨hne, rfl⟩ := List.mem_getLast?_eq_getLast (Option.mem_def.mpr h)
  exact List.getLast_mem hne

theorem mem_filterMapValues {κ α β : Type} {g : α → Option β} {l : List (κ × α)}
    {k : κ} {b : β} (h : (k, b) ∈ filterMapValues g l) :
    ∃ a, (k, a) ∈ l ∧ g a = some b := by
  obtain ⟨p, hp, heq⟩ := List.mem_filterMap.mp h
  cases hg : g p.2 with
  | none => rw [hg] at heq; simp at heq
  | some b' =>
      rw [hg] at heq
      simp only [Option.map_some', Option.some_inj] at heq
      have h1 : p.1 = k := congrArg Prod.fst heq
      have h2 : b' = b := congrArg Prod.snd heq
      refine ⟨p.2, ?_, by rw [hg, h2]⟩
      rw [← h1]
      simpa using hp

/-- After the retention sweep at time `now`, the dark-ship detector can
never fire (given that no recorded timestamp lies in the future): every
surviving history entry was filtered to the 30-minute density window, so
the gap between its two most recent timestamps is at most 30 minutes —
strictly below the one-hour `GAP_THRESHOLD`. -/
theorem gapSpike_never_after_sweep (s : RelayState) (now : ℤ)
    (hpast : ∀ p ∈ s.vesselHistory, ∀ ts ∈ p.2, ts ≤ now) :
    darkShipCount (cleanupAggregates s now) now = 0 := by
  rw [darkShipCount]
  apply List.countP_eq_zero.mpr
  intro p hp
  have hp' : (p.1, p.2) ∈ filterMapValues (sweepHistory (now - DENSITY_WINDOW))
      s.vesselHistory := by
    simpa [cleanupAggregates] using hp
  obtain ⟨a, ha, hsw⟩ := mem_filterMapValues hp'
  have hfil : p.2 = a.filter (fun ts => decide (now - DENSITY_WINDOW ≤ ts)) := by
    rw [sweepHistory] at hsw
    by_cases h0 : (a.filter (fun ts => decide (now - DENSITY_WINDOW ≤ ts))).length = 0
    · rw [if_pos h0] at hsw
      exact absurd hsw (by simp)
    · rw [if_neg h0] at hsw
      exact (Option.some_inj.mp hsw).symm
  cases hl : p.2.getLast? with
  | none => simp [isDarkReturn, hl]
  | some lastSeen =>
      cases hl2 : p.2.dropLast.getLast? with
      | none => simp [isDarkReturn, hl, hl2]
      | some secondLast =>
          have hmem1 : lastSeen ∈ p.2 := getLastQ_mem hl
          have hmem2 : secondLast ∈ p.2 := List.dropLast_subset _ (getLastQ_mem hl2)
          rw [hfil] at hmem1 hmem2
          have hc1 := List.mem_filter.mp hmem1
          have hc2 := List.mem_filter.mp hmem2
          have hcut1 : now - DENSITY_WINDOW ≤ lastSeen := by
            simpa using hc1.2
          have hcut2 : now - DENSITY_WINDOW ≤ secondLast := by
            simpa using hc2.2
          have hnow : lastSeen ≤ now := hpast (p.1, a) ha lastSeen hc1.1
          simp only [isDarkReturn, hl, hl2]
          intro hcontra
          rw [Bool.and_eq_true, decide_eq_true_iff, decide_eq_true_iff] at hcontra
          rw [GAP_THRESHOLD] at hcontra
          rw [DENSITY_WINDOW] at hcut2
          omega

/-- C1: the spec's dark-ship scenario — history `[t, t+90min]` with `now`
5 minutes after the return — does satisfy the detector's own gap test, and
`detectDisruptions` alone would emit one `gap_spike` counting the vessel;
but a genuine `buildSnapshot` rebuild runs the retention sweep first,
which deletes `t` (older than 30 minutes) from the history, so the
snapshot's disruption list is empty: no `gap_spike` is ever produced.  A
30-minute gap indeed never counts. -/
theorem claim_c1_theorem :
    isDarkReturn [0, 5400000] 5700000 = true ∧
    (detectDisruptions darkShipState 5700000).map Disruption.type = ["gap_spike"] ∧
    (detectDisruptions darkShipState 5700000).map Disruption.darkShips = [some 1] ∧
    (cleanupAggregates darkShipState 5700000).vesselHistory = [("123456789", [5400000])] ∧
    (buildSnapshot 5000 darkShipState 5700000).1.disruptions = [] ∧
    isDarkReturn [0, 1800000] 1800000 = false := by
  decide

/-! ### Claim C5 — snapshot sequence monotonicity and debounce -/

theorem rebuildSnapshot_last (s : RelayState) (now : ℤ) :
    (rebuildSnapshot s now).2.lastSnapshot = some (rebuildSnapshot s now).1 ∧
    (rebuildSnapshot s now).2.lastSnapshotAt = now ∧
    (rebuildSnapshot s now).2.snapshotSequence = s.snapshotSequence + 1 ∧
    (rebuildSnapshot s now).1.sequence = s.snapshotSequence + 1 := by
  refine ⟨rfl, rfl, rfl, rfl⟩

theorem buildSnapshot_cached (I : ℕ) (s : RelayState) (now : ℤ) (snap : Snapshot)
    (hc : s.lastSnapshot = some snap)
    (hd : now - s.lastSnapshotAt < ((I / 2 : ℕ) : ℤ)) :
    buildSnapshot I s now = (snap, s) := by
  simp only [buildSnapshot, hc]
  rw [if_pos hd]

theorem buildSnapshot_genuine (I : ℕ) (s : RelayState) (now : ℤ)
    (hg : s.lastSnapshot = none ∨ ((I / 2 : ℕ) : ℤ) ≤ now - s.lastSnapshotAt) :
    buildSnapshot I s now = rebuildSnapshot s now := by
  rcases hg with h | h
  · simp only [buildSnapshot, h]
  · cases hc : s.lastSnapshot with
    | none => simp only [buildSnapshot, hc]
    | some snap =>
        simp only [buildSnapshot, hc]
        rw [if_neg (not_lt.mpr h)]

theorem buildSnapshot_inv (I : ℕ) (s : RelayState) (now : ℤ) (h : SnapInv s) :
    SnapInv (buildSnapshot I s now).2 ∧
    s.snapshotSequence ≤ (buildSnapshot I s now).2.snapshotSequence ∧
    (buildSnapshot I s now).1.sequence = (buildSnapshot I s now).2.snapshotSequence := by
  cases hc : s.lastSnapshot with
  | some snap =>
      by_cases hd : now - s.lastSnapshotAt < ((I / 2 : ℕ) : ℤ)
      · rw [buildSnapshot_cached I s now snap hc hd]
        exact ⟨h, le_refl _, h snap hc⟩
      · rw [buildSnapshot_genuine I s now (Or.inr (not_lt.mp hd))]
        obtain ⟨h1, _, h3, h4⟩ := rebuildSnapshot_last s now
        refine ⟨?_, ?_, ?_⟩
        · intro sn hsn
          rw [h1, Option.some_inj] at hsn
          rw [← hsn, h4, h3]
        · rw [h3]; exact Nat.le_succ _
        · rw [h4, h3]
  | none =>
      rw [buildSnapshot_genuine I s now (Or.inl hc)]
      obtain ⟨h1, _, h3, h4⟩ := rebuildSnapshot_last s now
      refine ⟨?_, ?_, ?_⟩
      · intro sn hsn
        rw [h1, Option.some_inj] at hsn
        rw [← hsn, h4, h3]
      · rw [h3]; exact Nat.le_succ _
      · rw [h4, h3]

theorem runBuilds_spec (I : ℕ) (ts : List ℤ) :
    ∀ s : RelayState, SnapInv s →
      SnapInv (runBuilds I s ts).2 ∧
      s.snapshotSequence ≤ (runBuilds I s ts).2.snapshotSequence ∧
      (∀ x ∈ (runBuilds I s ts).1, s.snapshotSequence ≤ x.sequence) ∧
      List.Pairwise (fun a b => a.sequence ≤ b.sequence) (runBuilds I s ts).1 := by
  induction ts with
  | nil =>
      intro s h
      exact ⟨h, le_refl _, by simp [runBuilds], by simp [runBuilds]⟩
  | cons t ts ih =>
      intro s h
      obtain ⟨h1inv, h1le, h1ret⟩ := buildSnapshot_inv I s t h
      obtain ⟨ihinv, ihle, ihmem, ihpair⟩ := ih (buildSnapshot I s t).2 h1inv
      simp only [runBuilds]
      refine ⟨ihinv, le_trans h1le ihle, ?_, ?_⟩
      · intro x hx
        rcases List.mem_cons.mp hx with rfl | hx'
        · rw [h1ret]; exact h1le
        · exact le_trans h1le (ihmem x hx')
      · refine List.pairwise_cons.mpr ⟨?_, ihpair⟩
        intro x hx
        rw [h1ret]
        exact ihmem x hx

/-- C5: across any sequence of `buildSnapshot` calls from the initial
state the returned sequence numbers are non-decreasing; and any call made
less than half the configured interval (`Math.floor(I/2)` ms) after a
genuine rebuild returns that rebuild's snapshot object and leaves the
state — hence sweep results, detections, and the sequence — completely
untouched. -/
theorem claim_c5_theorem (I : ℕ) (ts : List ℤ) (s0 : RelayState) (t1 t2 : ℤ)
    (hgen : s0.lastSnapshot = none ∨ ((I / 2 : ℕ) : ℤ) ≤ t1 - s0.lastSnapshotAt)
    (hdeb : t2 - t1 < ((I / 2 : ℕ) : ℤ)) :
    List.Pairwise (fun a b => a.sequence ≤ b.sequence) (runBuilds I initState ts).1 ∧
    buildSnapshot I (buildSnapshot I s0 t1).2 t2 =
      ((buildSnapshot I s0 t1).1, (buildSnapshot I s0 t1).2) := by
  constructor
  · refine (runBuilds_spec I ts initState ?_).2.2.2
    intro snap hsnap
    simp [initState] at hsnap
  · rw [buildSnapshot_genuine I s0 t1 hgen]
    obtain ⟨h1, h2, _, _⟩ := rebuildSnapshot_last s0 t1
    exact buildSnapshot_cached I _ t2 _ h1 (by rw [h2]; exact hdeb)

/-- C5 witness: two calls at times 0 and 1000 with the default 5000 ms
interval; the second call is debounced. -/
theorem claim_c5_witness :
    List.Pairwise (fun a b => a.sequence ≤ b.sequence)
      (runBuilds 5000 initState [0, 1000]).1 ∧
    buildSnapshot 5000 (buildSnapshot 5000 initState 0).2 1000 =
      ((buildSnapshot 5000 initState 0).1, (buildSnapshot 5000 initState 0).2) :=
  claim_c5_theorem 5000 [0, 1000] initState 0 1000 (Or.inl rfl) (by decide)

/-! ### Claim C6 — last-write-wins vessel record; bounded history -/

theorem process_histLen (s : RelayState) (d : AisData) (now : ℤ)
    (hb : ∀ k h, mapGet s.vesselHistory k = some h → h.length ≤ 10) :
    ∀ k h, mapGet (processPositionReportForSnapshot s d now).vesselHistory k = some h →
      h.length ≤ 10 := by
  intro k h hk
  cases hp : parseReport d with
  | none =>
      rw [processPositionReportForSnapshot, hp] at hk
      exact hb k h hk
  | some m =>
      obtain ⟨meta, pos, lat, lon⟩ := m
      rw [processPositionReportForSnapshot, hp] at hk
      have hk' : mapGet (mapSet s.vesselHistory meta.MMSI
          (if 10 < ((mapGet s.vesselHistory meta.MMSI).getD [] ++ [now]).length
           then ((mapGet s.vesselHistory meta.MMSI).getD [] ++ [now]).tail
           else (mapGet s.vesselHistory meta.MMSI).getD [] ++ [now])) k = some h := hk
      have h0len : ((mapGet s.vesselHistory meta.MMSI).getD []).length ≤ 10 := by
        cases hg : mapGet s.vesselHistory meta.MMSI with
        | none => simp
        | some hh => simpa using hb meta.MMSI hh hg
      rcases mapGet_mapSet_cases _ _ _ _ _ hk' with ⟨_, rfl⟩ | hold
      · by_cases hlen : 10 < ((mapGet s.vesselHistory meta.MMSI).getD [] ++ [now]).length
        · rw [if_pos hlen]
          simp only [List.length_tail, List.length_append, List.length_singleton]
          omega
        · rw [if_neg hlen]
          simp only [List.length_append, List.length_singleton] at *
          omega
      · exact hb k h hold

theorem foldReports_histLen (rs : List (AisData × ℤ)) :
    ∀ k h, mapGet (foldReports initState rs).vesselHistory k = some h →
      h.length ≤ 10 := by
  suffices H : ∀ s : RelayState,
      (∀ k h, mapGet s.vesselHistory k = some h → h.length ≤ 10) →
      ∀ k h, mapGet (foldReports s rs).vesselHistory k = some h → h.length ≤ 10 by
    refine H initState ?_
    intro k h hk
    simp [initState, mapGet] at hk
  induction rs with
  | nil =>
      intro s hs
      simpa [foldReports] using hs
  | cons r rs ih =>
      intro s hs
      have : foldReports s (r :: rs) =
          foldReports (processPositionReportForSnapshot s r.1 r.2) rs := rfl
      rw [this]
      exact ih _ (process_histLen s r.1 r.2 hs)

/-- C6: processing a valid report overwrites the vessel's record with the
data of that (most recent) report in full; the vessel's history never
exceeds 10 entries (assuming it did not before, which holds from the
initial state by the last conjunct); and when the history already has 10
entries the new timestamp is appended and the oldest dropped. -/
theorem claim_c6_theorem (s : RelayState) (d : AisData) (meta : MetaData)
    (pos : PositionReport) (lat lon : ℚ) (now : ℤ)
    (hp : parseReport d = some (meta, pos, lat, lon))
    (hlen : ((mapGet s.vesselHistory meta.MMSI).getD []).length ≤ 10) :
    mapGet (processPositionReportForSnapshot s d now).vessels meta.MMSI =
      some (mkVesselRecord meta pos lat lon now) ∧
    (∀ h, mapGet (processPositionReportForSnapshot s d now).vesselHistory meta.MMSI =
      some h → h.length ≤ 10) ∧
    (((mapGet s.vesselHistory meta.MMSI).getD []).length = 10 →
      mapGet (processPositionReportForSnapshot s d now).vesselHistory meta.MMSI =
        some (((mapGet s.vesselHistory meta.MMSI).getD []).tail ++ [now])) ∧
    (∀ rs : List (AisData × ℤ), ∀ k h,
      mapGet (foldReports initState rs).vesselHistory k = some h → h.length ≤ 10) := by
  refine ⟨?_, ?_, ?_, fun rs => foldReports_histLen rs⟩
  · rw [processPositionReportForSnapshot, hp]
    simp [ingestReport, mapGet_mapSet_self]
  · intro h hk
    rw [processPositionReportForSnapshot, hp] at hk
    have hk' : mapGet (mapSet s.vesselHistory meta.MMSI
        (if 10 < ((mapGet s.vesselHistory meta.MMSI).getD [] ++ [now]).length
         then ((mapGet s.vesselHistory meta.MMSI).getD [] ++ [now]).tail
         else (mapGet s.vesselHistory meta.MMSI).getD [] ++ [now])) meta.MMSI =
        some h := hk
    rw [mapGet_mapSet_self, Option.some_inj] at hk'
    subst hk'
    by_cases hfull : 10 < ((mapGet s.vesselHistory meta.MMSI).getD [] ++ [now]).length
    · rw [if_pos hfull]
      simp only [List.length_tail, List.length_append, List.length_singleton]
      omega
    · rw [if_neg hfull]
      simp only [List.length_append, List.length_singleton] at *
      omega
  · intro hfull
    rw [processPositionReportForSnapshot, hp]
    show mapGet (mapSet s.vesselHistory meta.MMSI
        (if 10 < ((mapGet s.vesselHistory meta.MMSI).getD [] ++ [now]).length
         then ((mapGet s.vesselHistory meta.MMSI).getD [] ++ [now]).tail
         else (mapGet s.vesselHistory meta.MMSI).getD [] ++ [now])) meta.MMSI = _
    rw [mapGet_mapSet_self]
    have h11 : 10 < ((mapGet s.vesselHistory meta.MMSI).getD [] ++ [now]).length := by
      simp only [List.length_append, List.length_singleton]
      omega
    rw [if_pos h11]
    cases hh : (mapGet s.vesselHistory meta.MMSI).getD [] with
    | nil => rw [hh] at hfull; simp at hfull
    | cons a t => simp [hh]

/-- C6 witness: a valid report at time 11 into a state whose history for
the vessel already holds the 10 timestamps 1..10: the record is
overwritten, and the history becomes 2..10 followed by 11. -/
theorem claim_c6_witness :
    mapGet (processPositionReportForSnapshot tenHistoryState militaryReport 11).vessels
        ("123456789" : String) =
      some (mkVesselRecord ⟨"123456789", "", some 35, none, none⟩
        ⟨some 5, some 5, none, none, none⟩ 5 5 11) ∧
    (∀ h, mapGet (processPositionReportForSnapshot tenHistoryState militaryReport
        11).vesselHistory ("123456789" : String) = some h → h.length ≤ 10) ∧
    (((mapGet tenHistoryState.vesselHistory ("123456789" : String)).getD []).length = 10 →
      mapGet (processPositionReportForSnapshot tenHistoryState militaryReport
          11).vesselHistory ("123456789" : String) =
        some (((mapGet tenHistoryState.vesselHistory
          ("123456789" : String)).getD []).tail ++ [11])) ∧
    (∀ rs : List (AisData × ℤ), ∀ k h,
      mapGet (foldReports initState rs).vesselHistory k = some h → h.length ≤ 10) :=
  claim_c6_theorem tenHistoryState militaryReport ⟨"123456789", "", some 35, none, none⟩
    ⟨some 5, some 5, none, none, none⟩ 5 5 11 (by decide) (by decide)

/-! ### Claim C10 — `/ais/snapshot?candidates=true` recomputes the
candidate list even when the snapshot itself is debounced -/

/-- C10: the `candidates=true` payload always carries
`getCandidateReportsSnapshot` of the live registry at request time
(sorted newest-first and truncated to 1500 by that function); under the
debounce rule the snapshot itself is the cached object and the state is
untouched, yet the candidate list is still read from the live registry —
so two requests inside one debounce window (concretely: requests at times
1500 and 2000 against a rebuild at time 1000, with a fresh candidate
report at 1600 in between) return the same sequence number but different
candidateReports. -/
theorem claim_c10_theorem (I : ℕ) (s : RelayState) (now : ℤ) (snap : Snapshot)
    (hc : s.lastSnapshot = some snap)
    (hd : now - s.lastSnapshotAt < ((I / 2 : ℕ) : ℤ)) :
    (∀ (s' : RelayState) (now' : ℤ),
      (handleSnapshotRequest I s' now' true).1.candidateReports =
        getCandidateReportsSnapshot
          ((handleSnapshotRequest I s' now' true).2).candidateReports) ∧
    (handleSnapshotRequest I s now true).1.snapshot = snap ∧
    (handleSnapshotRequest I s now true).2 = s ∧
    (handleSnapshotRequest I s now true).1.candidateReports =
      getCandidateReportsSnapshot s.candidateReports ∧
    (handleSnapshotRequest 5000 c10StateA 1500 true).1.snapshot.sequence =
      (handleSnapshotRequest 5000 c10StateB 2000 true).1.snapshot.sequence ∧
    (handleSnapshotRequest 5000 c10StateA 1500 true).1.candidateReports ≠
      (handleSnapshotRequest 5000 c10StateB 2000 true).1.candidateReports := by
  have hb := buildSnapshot_cached I s now snap hc hd
  refine ⟨fun s' now' => rfl, ?_, ?_, ?_, by decide, by decide⟩ <;>
    simp [handleSnapshotRequest, hb]

/-- C10 witness: the debounced request against the concrete rebuilt state
`c10StateA` (cache stamped at 1000, request at 1500). -/
theorem claim_c10_witness :
    (∀ (s' : RelayState) (now' : ℤ),
      (handleSnapshotRequest 5000 s' now' true).1.candidateReports =
        getCandidateReportsSnapshot
          ((handleSnapshotRequest 5000 s' now' true).2).candidateReports) ∧
    (handleSnapshotRequest 5000 c10StateA 1500 true).1.snapshot =
      (buildSnapshot 5000 (processPositionReportForSnapshot initState militaryReport 100)
        1000).1 ∧
    (handleSnapshotRequest 5000 c10StateA 1500 true).2 = c10StateA ∧
    (handleSnapshotRequest 5000 c10StateA 1500 true).1.candidateReports =
      getCandidateReportsSnapshot c10StateA.candidateReports ∧
    (handleSnapshotRequest 5000 c10StateA 1500 true).1.snapshot.sequence =
      (handleSnapshotRequest 5000 c10StateB 2000 true).1.snapshot.sequence ∧
    (handleSnapshotRequest 5000 c10StateA 1500 true).1.candidateReports ≠
      (handleSnapshotRequest 5000 c10StateB 2000 true).1.candidateReports :=
  claim_c10_theorem 5000 c10StateA 1500
    (buildSnapshot 5000 (processPositionReportForSnapshot initState militaryReport 100)
      1000).1 (by decide) (by decide)

/-! ### Claim C4 — chokepoint congestion records -/

theorem congestionRecord_isSome_iff (vessels : List (String × VesselRecord))
    (cp : Chokepoint) :
    (congestionRecord vessels cp).isSome ↔ 5 ≤ vesselsInRange vessels cp := by
  by_cases h : 5 ≤ vesselsInRange vessels cp
  · rw [congestionRecord, if_pos h]
    exact iff_of_true rfl h
  · rw [congestionRecord, if_neg h]
    exact iff_of_false (by simp) h

theorem congestionRecord_fields (vessels : List (String × VesselRecord))
    (cp : Chokepoint) (r : Disruption) (h : congestionRecord vessels cp = some r) :
    r.type = "chokepoint_congestion" ∧ r.name = cp.name ∧
    r.severity =
      (if ratMul (ratMul cp.radius 10) (mkRat 3 2) < (vesselsInRange vessels cp : ℚ)
       then "high"
       else if ratMul cp.radius 10 < (vesselsInRange vessels cp : ℚ) then "elevated"
       else "low") ∧
    r.changePct =
      (if 0 < ratMul cp.radius 10 then
        jsRound (ratMul (ratSub (ratDiv (vesselsInRange vessels cp : ℚ)
          (ratMul cp.radius 10)) 1) 100)
       else 0) := by
  by_cases h5 : 5 ≤ vesselsInRange vessels cp
  · rw [congestionRecord, if_pos h5, Option.some_inj] at h
    subst h
    exact ⟨rfl, rfl, rfl, rfl⟩
  · rw [congestionRecord, if_neg h5] at h
    exact absurd h (by simp)

theorem congestion_mem_detect (s : RelayState) (now : ℤ) (r : Disruption)
    (h : r ∈ CHOKEPOINTS.filterMap (congestionRecord s.vessels)) :
    r ∈ detectDisruptions s now := by
  simp only [detectDisruptions]
  by_cases hc : 1 ≤ darkShipCount s now
  · rw [if_pos hc]
    exact List.mem_append_left _ h
  · rw [if_neg hc]
    exact h

theorem detect_congestion_mem (s : RelayState) (now : ℤ) (r : Disruption)
    (hr : r ∈ detectDisruptions s now) (ht : r.type = "chokepoint_congestion") :
    r ∈ CHOKEPOINTS.filterMap (congestionRecord s.vessels) := by
  simp only [detectDisruptions] at hr
  by_cases hc : 1 ≤ darkShipCount s now
  · rw [if_pos hc] at hr
    rcases List.mem_append.mp hr with h | h
    · exact h
    · rw [List.mem_singleton] at h
      subst h
      simp [gapSpikeRecord] at ht
  · rw [if_neg hc] at hr
    exact hr

theorem chokepoint_names_inj :
    ∀ a ∈ CHOKEPOINTS, ∀ b ∈ CHOKEPOINTS, a.name = b.name → a = b := by
  decide

theorem chokepoint_radius_pos : ∀ cp ∈ CHOKEPOINTS, (0 : ℚ) < cp.radius := by
  decide

theorem mkRat_three_two : (mkRat 3 2 : ℚ) = 3 / 2 := by
  rw [Rat.mkRat_eq_div]
  norm_num

/-- C4: for every chokepoint and every vessel-store state, the detector
emits a congestion record for that chokepoint iff at least 5 tracked
vessels lie within its radius in flat degree space; the emitted record's
severity is `high` iff count > 1.5·baseline, `elevated` iff baseline <
count ≤ 1.5·baseline, and `low` iff count ≤ baseline, with
`baseline = radius × 10` and `changePct = round((count/baseline − 1)·100)`;
in particular radius 2 gives baseline 20, counts 25 / 35 at the Strait of
Hormuz give `elevated` / `high`, and a count of 4 emits nothing. -/
theorem claim_c4_theorem (cp : Chokepoint) (hcp : cp ∈ CHOKEPOINTS)
    (s : RelayState) (now : ℤ) :
    ((∃ r ∈ detectDisruptions s now,
        r.type = "chokepoint_congestion" ∧ r.name = cp.name) ↔
      5 ≤ vesselsInRange s.vessels cp) ∧
    (∀ r, congestionRecord s.vessels cp = some r →
      r ∈ detectDisruptions s now ∧
      (r.severity = "high" ↔
        (3 / 2 : ℚ) * (cp.radius * 10) < (vesselsInRange s.vessels cp : ℚ)) ∧
      (r.severity = "elevated" ↔
        (cp.radius * 10 < (vesselsInRange s.vessels cp : ℚ) ∧
         (vesselsInRange s.vessels cp : ℚ) ≤ (3 / 2 : ℚ) * (cp.radius * 10))) ∧
      (r.severity = "low" ↔ (vesselsInRange s.vessels cp : ℚ) ≤ cp.radius * 10) ∧
      r.changePct =
        jsRound (((vesselsInRange s.vessels cp : ℚ) / (cp.radius * 10) - 1) * 100)) ∧
    hormuz.radius * 10 = 20 ∧
    (congestionRecord (vesselsNearHormuz 25) hormuz).map Disruption.severity =
      some "elevated" ∧
    (congestionRecord (vesselsNearHormuz 35) hormuz).map Disruption.severity =
      some "high" ∧
    congestionRecord (vesselsNearHormuz 4) hormuz = none := by
  have hpos : (0 : ℚ) < cp.radius := chokepoint_radius_pos cp hcp
  have hnt : ratMul cp.radius 10 = cp.radius * 10 := ratMul_eq _ _
  have hntpos : (0 : ℚ) < ratMul cp.radius 10 := by
    rw [hnt]
    positivity
  have h32 : ratMul (ratMul cp.radius 10) (mkRat 3 2) =
      (3 / 2 : ℚ) * (cp.radius * 10) := by
    rw [ratMul_eq, hnt, mkRat_three_two, mul_comm]
  refine ⟨?_, ?_, by norm_num [hormuz], by decide, by decide, by decide⟩
  · constructor
    · rintro ⟨r, hr, ht, hn⟩
      obtain ⟨cp', hcp', hrec⟩ :=
        List.mem_filterMap.mp (detect_congestion_mem s now r hr ht)
      obtain ⟨-, hname, -, -⟩ := congestionRecord_fields s.vessels cp' r hrec
      have hcc : cp' = cp := chokepoint_names_inj cp' hcp' cp hcp (by rw [← hname, hn])
      subst hcc
      rw [← congestionRecord_isSome_iff, hrec]
      rfl
    · intro h5
      obtain ⟨r, hr⟩ := Option.isSome_iff_exists.mp
        ((congestionRecord_isSome_iff s.vessels cp).mpr h5)
      obtain ⟨ht, hn, -, -⟩ := congestionRecord_fields s.vessels cp r hr
      refine ⟨r, ?_, ht, hn⟩
      exact congestion_mem_detect s now r (List.mem_filterMap.mpr ⟨cp, hcp, hr⟩)
  · intro r hrec
    obtain ⟨ht, hn, hsev, hpct⟩ := congestionRecord_fields s.vessels cp r hrec
    have hmem : r ∈ detectDisruptions s now :=
      congestion_mem_detect s now r (List.mem_filterMap.mpr ⟨cp, hcp, hrec⟩)
    refine ⟨hmem, ?_, ?_, ?_, ?_⟩
    · rw [hsev]
      by_cases hA : ratMul (ratMul cp.radius 10) (mkRat 3 2) <
          (vesselsInRange s.vessels cp : ℚ)
      · rw [if_pos hA]
        exact iff_of_true rfl (h32 ▸ hA)
      · rw [if_neg hA]
        have hAn : ¬ (3 / 2 : ℚ) * (cp.radius * 10) < (vesselsInRange s.vessels cp : ℚ) :=
          h32 ▸ hA
        by_cases hB : ratMul cp.radius 10 < (vesselsInRange s.vessels cp : ℚ)
        · rw [if_pos hB]
          exact iff_of_false (by decide) hAn
        · rw [if_neg hB]
          exact iff_of_false (by decide) hAn
    · rw [hsev]
      by_cases hA : ratMul (ratMul cp.radius 10) (mkRat 3 2) <
          (vesselsInRange s.vessels cp : ℚ)
      · rw [if_pos hA]
        have hAs : (3 / 2 : ℚ) * (cp.radius * 10) < (vesselsInRange s.vessels cp : ℚ) :=
          h32 ▸ hA
        refine iff_of_false (by decide) ?_
        rintro ⟨-, hle⟩
        exact absurd hAs (not_lt.mpr hle)
      · rw [if_neg hA]
        have hAn : (vesselsInRange s.vessels cp : ℚ) ≤ (3 / 2 : ℚ) * (cp.radius * 10) :=
          not_lt.mp (h32 ▸ hA)
        by_cases hB : ratMul cp.radius 10 < (vesselsInRange s.vessels cp : ℚ)
        · rw [if_pos hB]
          exact iff_of_true rfl ⟨hnt ▸ hB, hAn⟩
        · rw [if_neg hB]
          refine iff_of_false (by decide) ?_
          rintro ⟨hgt, -⟩
          exact (hnt ▸ hB) hgt
    · rw [hsev]
      by_cases hA : ratMul (ratMul cp.radius 10) (mkRat 3 2) <
          (vesselsInRange s.vessels cp : ℚ)
      · rw [if_pos hA]
        have hAs : (3 / 2 : ℚ) * (cp.radius * 10) < (vesselsInRange s.vessels cp : ℚ) :=
          h32 ▸ hA
        refine iff_of_false (by decide) (not_le.mpr ?_)
        nlinarith
      · rw [if_neg hA]
        by_cases hB : ratMul cp.radius 10 < (vesselsInRange s.vessels cp : ℚ)
        · rw [if_pos hB]
          exact iff_of_false (by decide) (not_le.mpr (hnt ▸ hB))
        · rw [if_neg hB]
          exact iff_of_true rfl (not_lt.mp (hnt ▸ hB))
    · rw [hpct, if_pos hntpos]
      congr 1
      rw [ratMul_eq, ratSub_eq, ratDiv_eq, hnt]

/-- C4 witness: the theorem at the Strait of Hormuz with 25 vessels on its
center at time 0. -/
theorem claim_c4_witness :
    ((∃ r ∈ detectDisruptions hormuz25State 0,
        r.type = "chokepoint_congestion" ∧ r.name = hormuz.name) ↔
      5 ≤ vesselsInRange hormuz25State.vessels hormuz) ∧
    (∀ r, congestionRecord hormuz25State.vessels hormuz = some r →
      r ∈ detectDisruptions hormuz25State 0 ∧
      (r.severity = "high" ↔
        (3 / 2 : ℚ) * (hormuz.radius * 10) <
          (vesselsInRange hormuz25State.vessels hormuz : ℚ)) ∧
      (r.severity = "elevated" ↔
        (hormuz.radius * 10 < (vesselsInRange hormuz25State.vessels hormuz : ℚ) ∧
         (vesselsInRange hormuz25State.vessels hormuz : ℚ) ≤
           (3 / 2 : ℚ) * (hormuz.radius * 10))) ∧
      (r.severity = "low" ↔
        (vesselsInRange hormuz25State.vessels hormuz : ℚ) ≤ hormuz.radius * 10) ∧
      r.changePct =
        jsRound (((vesselsInRange hormuz25State.vessels hormuz : ℚ) /
          (hormuz.radius * 10) - 1) * 100)) ∧
    hormuz.radius * 10 = 20 ∧
    (congestionRecord (vesselsNearHormuz 25) hormuz).map Disruption.severity =
      some "elevated" ∧
    (congestionRecord (vesselsNearHormuz 35) hormuz).map Disruption.severity =
      some "high" ∧
    congestionRecord (vesselsNearHormuz 4) hormuz = none :=
  claim_c4_theorem hormuz (by decide) hormuz25State 0

/-! ### Claim C3 — density-cell occupancy after a sweep -/

theorem ingestReport_vessels (s : RelayState) (meta : MetaData) (pos : PositionReport)
    (lat lon : ℚ) (now : ℤ) :
    (ingestReport s meta pos lat lon now).vessels =
      mapSet s.vessels meta.MMSI (mkVesselRecord meta pos lat lon now) := rfl

theorem ingestReport_grid (s : RelayState) (meta : MetaData) (pos : PositionReport)
    (lat lon : ℚ) (now : ℤ) :
    (ingestReport s meta pos lat lon now).densityGrid =
      mapSet s.densityGrid (getGridKey lat lon)
        { (mapGet s.densityGrid (getGridKey lat lon)).getD (freshCell lat lon now) with
          vessels := setAdd ((mapGet s.densityGrid (getGridKey lat lon)).getD
            (freshCell lat lon now)).vessels meta.MMSI
          lastUpdate := now } := rfl

theorem sweepCell_some (vessels1 : List (String × VesselRecord)) (now cutoff : ℤ)
    (cell cell' : DensityCell) (h : sweepCell vessels1 now cutoff cell = some cell') :
    cell'.vessels = cell.vessels.filter (fun m =>
      match mapGet vessels1 m with
      | none => false
      | some v => decide (cutoff ≤ v.timestamp)) := by
  simp only [sweepCell] at h
  split at h
  · exact absurd h (by simp)
  · rw [Option.some_inj] at h
    rw [← h]

theorem aggInv_init : AggInv initState := by
  constructor
  · simp [initState]
  · simp [initState]
  · intro k cell hk
    simp [initState, mapGet] at hk
  · intro m v hm
    simp [initState, mapGet] at hm

theorem aggInv_report (s : RelayState) (d : AisData) (t : ℤ) (h : AggInv s) :
    AggInv (processPositionReportForSnapshot s d t) := by
  cases hp : parseReport d with
  | none =>
      rw [processPositionReportForSnapshot, hp]
      exact h
  | some q =>
      obtain ⟨meta, pos, lat, lon⟩ := q
      rw [processPositionReportForSnapshot, hp]
      have hv := ingestReport_vessels s meta pos lat lon t
      have hg := ingestReport_grid s meta pos lat lon t
      constructor
      · rw [hv]
        exact nodupKeys_mapSet _ _ _ h.vkeys
      · rw [hg]
        exact nodupKeys_mapSet _ _ _ h.gkeys
      · rw [hg]
        intro k cell hk
        rcases mapGet_mapSet_cases _ _ _ _ _ hk with ⟨rfl, rfl⟩ | hold
        · apply nodup_setAdd
          cases hc : mapGet s.densityGrid (getGridKey lat lon) with
          | none => simp [freshCell]
          | some c => simpa using h.cellsNodup _ c hc
        · exact h.cellsNodup k cell hold
      · rw [hv, hg]
        intro m v hm
        rcases mapGet_mapSet_cases _ _ _ _ _ hm with ⟨rfl, rfl⟩ | hold
        · refine ⟨_, mapGet_mapSet_self _ _ _, ?_⟩
          exact mem_setAdd.mpr (Or.inr rfl)
        · obtain ⟨cell, hcellget, hmem⟩ := h.binned m v hold
          by_cases hk : getGridKey v.lat v.lon = getGridKey lat lon
          · refine ⟨_, by rw [hk]; exact mapGet_mapSet_self _ _ _, ?_⟩
            apply mem_setAdd.mpr
            left
            rw [hk] at hcellget
            rw [hcellget]
            exact hmem
          · exact ⟨cell, by rw [mapGet_mapSet_ne _ _ _ _ hk]; exact hcellget, hmem⟩

theorem aggInv_sweep (s : RelayState) (t : ℤ) (h : AggInv s) :
    AggInv (cleanupAggregates s t) := by
  have hv : (cleanupAggregates s t).vessels =
      filterMapValues (sweepVessel (t - DENSITY_WINDOW)) s.vessels := rfl
  have hg : (cleanupAggregates s t).densityGrid =
      filterMapValues (sweepCell (filterMapValues (sweepVessel (t - DENSITY_WINDOW))
        s.vessels) t (t - DENSITY_WINDOW)) s.densityGrid := rfl
  constructor
  · rw [hv]
    exact nodupKeys_filterMapValues _ _ h.vkeys
  · rw [hg]
    exact nodupKeys_filterMapValues _ _ h.gkeys
  · rw [hg]
    intro k cell hk
    rw [mapGet_filterMapValues _ _ h.gkeys] at hk
    cases hc : mapGet s.densityGrid k with
    | none =>
        rw [hc] at hk
        simp at hk
    | some c =>
        rw [hc] at hk
        simp only [Option.some_bind] at hk
        rw [sweepCell_some _ _ _ _ _ hk]
        exact (h.cellsNodup k c hc).filter _
  · rw [hv, hg]
    intro m v hm
    rw [mapGet_filterMapValues _ _ h.vkeys] at hm
    cases hvo : mapGet s.vessels m with
    | none =>
        rw [hvo] at hm
        simp at hm
    | some v0 =>
        rw [hvo] at hm
        simp only [Option.some_bind] at hm
        have hvv : v = v0 ∧ ¬(v0.timestamp < t - DENSITY_WINDOW) := by
          rw [sweepVessel] at hm
          by_cases hcv : v0.timestamp < t - DENSITY_WINDOW
          · rw [if_pos hcv] at hm
            exact absurd hm (by simp)
          · rw [if_neg hcv] at hm
            exact ⟨(Option.some_inj.mp hm).symm, hcv⟩
        obtain ⟨rfl, hfresh⟩ := hvv
        obtain ⟨cell, hcellget, hmem⟩ := h.binned m v hvo
        rw [mapGet_filterMapValues _ _ h.gkeys, hcellget]
        simp only [Option.some_bind]
        have hpred : (match mapGet (filterMapValues (sweepVessel (t - DENSITY_WINDOW))
            s.vessels) m with
          | none => false
          | some w => decide (t - DENSITY_WINDOW ≤ w.timestamp)) = true := by
          rw [mapGet_filterMapValues _ _ h.vkeys, hvo]
          simp only [Option.some_bind, sweepVessel, if_neg hfresh]
          simpa using not_lt.mp hfresh
        have hkept : m ∈ cell.vessels.filter (fun m' =>
            match mapGet (filterMapValues (sweepVessel (t - DENSITY_WINDOW))
              s.vessels) m' with
            | none => false
            | some w => decide (t - DENSITY_WINDOW ≤ w.timestamp)) :=
          List.mem_filter.mpr ⟨hmem, hpred⟩
        have hne : ¬(((cell.vessels.filter (fun m' =>
            match mapGet (filterMapValues (sweepVessel (t - DENSITY_WINDOW))
              s.vessels) m' with
            | none => false
            | some w => decide (t - DENSITY_WINDOW ≤ w.timestamp))).length == 0 &&
            decide (DENSITY_WINDOW * 2 < t - cell.lastUpdate)) = true) := by
          intro hcontra
          rw [Bool.and_eq_true] at hcontra
          have hlen0 := List.length_eq_zero.mp (beq_iff_eq.mp hcontra.1)
          rw [hlen0] at hkept
          exact List.not_mem_nil m hkept
        simp only [sweepCell, if_neg hne]
        exact ⟨_, rfl, hkept⟩

theorem aggInv_applyOps (ops : List Op) : ∀ s, AggInv s → AggInv (applyOps s ops) := by
  induction ops with
  | nil =>
      intro s h
      exact h
  | cons op ops ih =>
      intro s h
      have hstep : applyOps s (op :: ops) = applyOps (applyOp s op) ops := rfl
      rw [hstep]
      apply ih
      cases op with
      | report d t => exact aggInv_report s d t h
      | sweep t => exact aggInv_sweep s t h

theorem aggInv_reachable (s : RelayState) (hs : Reachable s) : AggInv s := by
  obtain ⟨ops, rfl⟩ := hs
  exact aggInv_applyOps ops initState aggInv_init

/-- C3 (counterexample): the claim says that after a sweep every cell's
occupant set is exactly the fresh vessels whose CURRENT coordinates bin
into the cell.  One vessel reports at (1,1) — cell (0,0) — then moves to
(11,11) — cell (10,10) — and the sweep runs; the vessel is fresh, it is
the only vessel, its current bin is (10,10), yet cell (0,0) still lists it
as an occupant (count 1, where the claim demands 0). -/
theorem claim_c3_counterexample :
    (applyOps initState movedVesselOps).vessels.map Prod.fst = ["123456789"] ∧
    (mapGet (applyOps initState movedVesselOps).vessels "123456789").map
      (fun v => getGridKey v.lat v.lon) = some (10, 10) ∧
    (mapGet (applyOps initState movedVesselOps).vessels "123456789").map
      (fun v => decide (0 - DENSITY_WINDOW ≤ v.timestamp)) = some true ∧
    (mapGet (applyOps initState movedVesselOps).densityGrid (0, 0)).map
      DensityCell.vessels = some ["123456789"] := by
  decide

/-- C3 (amended): after every sweep of a reachable aggregation state, each
density cell's occupant list is duplicate-free (so a vessel contributes at
most one to any count) and every occupant has a fresh VesselRecord
(reported within the 30-minute window); conversely every fresh vessel is
an occupant of the cell its CURRENT coordinates bin into — but a cell may
also retain fresh vessels whose current coordinates bin elsewhere, so its
count can exceed the number of vessels currently binned there (see the
counterexample). -/
theorem claim_c3_theorem (s : RelayState) (hs : Reachable s) (now : ℤ) :
    (∀ k cell, mapGet (cleanupAggregates s now).densityGrid k = some cell →
      cell.vessels.Nodup ∧
      ∀ m ∈ cell.vessels, ∃ v, mapGet (cleanupAggregates s now).vessels m = some v ∧
        now - DENSITY_WINDOW ≤ v.timestamp) ∧
    (∀ m v, mapGet (cleanupAggregates s now).vessels m = some v →
      ∃ cell, mapGet (cleanupAggregates s now).densityGrid (getGridKey v.lat v.lon) =
        some cell ∧ m ∈ cell.vessels) := by
  have h := aggInv_reachable s hs
  have h' := aggInv_sweep s now h
  refine ⟨?_, h'.binned⟩
  intro k cell hk
  refine ⟨h'.cellsNodup k cell hk, ?_⟩
  intro m hm
  have hg : (cleanupAggregates s now).densityGrid =
      filterMapValues (sweepCell (filterMapValues (sweepVessel (now - DENSITY_WINDOW))
        s.vessels) now (now - DENSITY_WINDOW)) s.densityGrid := rfl
  rw [hg, mapGet_filterMapValues _ _ h.gkeys] at hk
  cases hc : mapGet s.densityGrid k with
  | none =>
      rw [hc] at hk
      simp at hk
  | some c =>
      rw [hc] at hk
      simp only [Option.some_bind] at hk
      rw [sweepCell_some _ _ _ _ _ hk] at hm
      have hmf := List.mem_filter.mp hm
      have hpred := hmf.2
      cases hvm : mapGet (filterMapValues (sweepVessel (now - DENSITY_WINDOW))
          s.vessels) m with
      | none =>
          rw [hvm] at hpred
          simp at hpred
      | some v =>
          rw [hvm] at hpred
          refine ⟨v, hvm, ?_⟩
          simpa using hpred

/-- C3 witness: the amended theorem applied to the concrete moved-vessel
state, reached by its recorded operation history, swept at time 0. -/
theorem claim_c3_witness :
    (∀ k cell, mapGet (cleanupAggregates (applyOps initState movedVesselOps)
        0).densityGrid k = some cell →
      cell.vessels.Nodup ∧
      ∀ m ∈ cell.vessels, ∃ v,
        mapGet (cleanupAggregates (applyOps initState movedVesselOps) 0).vessels m =
          some v ∧ 0 - DENSITY_WINDOW ≤ v.timestamp) ∧
    (∀ m v, mapGet (cleanupAggregates (applyOps initState movedVesselOps) 0).vessels m =
        some v →
      ∃ cell, mapGet (cleanupAggregates (applyOps initState movedVesselOps)
        0).densityGrid (getGridKey v.lat v.lon) = some cell ∧ m ∈ cell.vessels) :=
  claim_c3_theorem (applyOps initState movedVesselOps) ⟨movedVesselOps, rfl⟩ 0

end AisRelay
